import Mathlib

/-!
Shallow embedding of the editor-js warning/success block adapters.

The repository contains three adapter implementations:
* `WarningTS` — the TypeScript simple variant (title + message), appearing
  twice verbatim in `src/src/index.ts`; both copies are identical, so one
  embedding covers both.
* `Alert` — the typed variant (type + message) at the end of
  `src/src/index.ts`, with a `typeColor` mapping, a settings strip and a
  type-switch state machine.
* `Success` — the JavaScript simple variant in `src/src/index.js`
  (the legacy `Warning` class in the same file is byte-for-byte the same
  code modulo class-name strings).

DOM elements are modelled as a tree carrying exactly the attributes the
adapters touch: class list, `contentEditable`, `innerHTML`,
`dataset.placeholder` and `style.backgroundColor`.  A JavaScript throw is
modelled by returning `none`.  JS `x || d` on optional strings and the JS
truthiness / stringification of `undefined` are made explicit.
-/

/-- JS `v || d` for an optional string `v`: `undefined` and `""` are falsy. -/
def jsOr (v : Option String) (d : String) : String :=
  match v with
  | some s => if s = "" then d else s
  | none => d

/-- JS template-string rendering of a possibly-undefined string
(`undefined` prints as "undefined"). -/
def jsStr : Option String → String
  | some s => s
  | none => "undefined"

/-- JS truthiness of a possibly-undefined string. -/
def jsTruthy : Option String → Bool
  | some s => s != ""
  | none => false

/-- The style class-name constants the adapters read from the host
`api.styles` object. -/
structure ApiStyles where
  block : String
  input : String
  settingsButton : String
  settingsButtonActive : String

/-- A DOM element, restricted to the attributes the adapters read or write:
tag, class list, `contentEditable`, `innerHTML`, `dataset.placeholder`,
`style.backgroundColor` and child list. -/
inductive Element : Type where
  | node (tag : String) (classes : List String) (contentEditable : Bool)
      (innerHTML : String) (placeholder : Option String)
      (bgColor : Option String) (children : List Element)

def Element.tag : Element → String
  | .node t _ _ _ _ _ _ => t

def Element.classes : Element → List String
  | .node _ c _ _ _ _ _ => c

def Element.contentEditable : Element → Bool
  | .node _ _ e _ _ _ _ => e

def Element.innerHTML : Element → String
  | .node _ _ _ h _ _ _ => h

def Element.placeholder : Element → Option String
  | .node _ _ _ _ p _ _ => p

def Element.bgColor : Element → Option String
  | .node _ _ _ _ _ b _ => b

def Element.children : Element → List Element
  | .node _ _ _ _ _ _ ch => ch

mutual

/-- Depth-first search for an element carrying class `cls`
(the element itself, then its descendants in order). -/
def Element.findByClass (cls : String) : Element → Option Element
  | .node t c e h p b ch =>
    if cls ∈ c then some (.node t c e h p b ch)
    else findListByClass cls ch

/-- First match of `Element.findByClass` over a list of siblings. -/
def findListByClass (cls : String) : List Element → Option Element
  | [] => none
  | e :: es =>
    match Element.findByClass cls e with
    | some r => some r
    | none => findListByClass cls es

end

/-- `root.querySelector("." ++ cls)`: first descendant of `root` (excluding
`root` itself) whose class list contains `cls`, in document order. -/
def querySelector (root : Element) (cls : String) : Option Element :=
  findListByClass cls root.children

/-- `classList.add`: no-op when the class is already present. -/
def classListAdd (cs : List String) (c : String) : List String :=
  if c ∈ cs then cs else cs ++ [c]

/-- `classList.remove`: removes every occurrence of the class. -/
def classListRemove (cs : List String) (c : String) : List String :=
  cs.filter (fun x => x ≠ c)

/-- Caller-supplied partial block data for the simple variants:
both fields may be absent. -/
structure TitleMessageInput where
  title : Option String
  message : Option String

/-- The simple variants' saved data shape: both fields always present. -/
structure WarningTSData where
  title : String
  message : String

/-- `WarningConfig` of the TS variant: both placeholders optional. -/
structure WarningTSConfig where
  titlePlaceholder : Option String
  messagePlaceholder : Option String

/-- Instance state of the TS `Warning` class after construction. -/
structure WarningTS where
  api : ApiStyles
  readOnly : Bool
  titlePlaceholder : String
  messagePlaceholder : String
  data : WarningTSData

def WarningTS.DEFAULT_TITLE_PLACEHOLDER : String := "Title"

def WarningTS.DEFAULT_MESSAGE_PLACEHOLDER : String := "Message"

/-- TS `Warning` constructor: `config?.titlePlaceholder || default`,
`data.title || ""`, `data.message || ""`.  The `config` object itself is
optional (`config?.` optional chaining). -/
def WarningTS.construct (data : TitleMessageInput) (config : Option WarningTSConfig)
    (api : ApiStyles) (readOnly : Bool) : WarningTS :=
  { api := api
    readOnly := readOnly
    titlePlaceholder :=
      jsOr (config.bind fun c => c.titlePlaceholder) WarningTS.DEFAULT_TITLE_PLACEHOLDER
    messagePlaceholder :=
      jsOr (config.bind fun c => c.messagePlaceholder) WarningTS.DEFAULT_MESSAGE_PLACEHOLDER
    data :=
      { title := jsOr data.title ""
        message := jsOr data.message "" } }

/-- TS `Warning.render`: container with base/wrapper classes holding the
title div and the message div, each with `contentEditable = !readOnly`,
the saved content as `innerHTML` and a `dataset.placeholder`. -/
def WarningTS.render (w : WarningTS) : Element :=
  .node "div" [w.api.block, "cdx-warning"] false "" none none
    [ .node "div" [w.api.input, "cdx-warning__title"] (!w.readOnly)
        w.data.title (some w.titlePlaceholder) none []
    , .node "div" [w.api.input, "cdx-warning__message"] (!w.readOnly)
        w.data.message (some w.messagePlaceholder) none [] ]

/-- TS `Warning.save`: `querySelector` for the title and message nodes,
`el?.innerHTML ?? ""` for each, then `Object.assign(this.data, {...})`
(so the internal data is updated in place and also returned).
The pair is (returned object, instance state after the call). -/
def WarningTS.save (w : WarningTS) (el : Element) : WarningTSData × WarningTS :=
  let d : WarningTSData :=
    { title := ((querySelector el "cdx-warning__title").map Element.innerHTML).getD ""
      message := ((querySelector el "cdx-warning__message").map Element.innerHTML).getD "" }
  (d, { w with data := d })

/-- TS `Warning.sanitize` static getter: each saved field mapped to its
allowed-tag set; `{}` means all tags stripped, modelled as `[]`. -/
def WarningTS.sanitizeConfig : List (String × List String) :=
  [("title", []), ("message", [])]

/-- `SuccessConfig`: both placeholders optional (but the config object
itself is required — the JS constructor reads `config.titlePlaceholder`
without optional chaining). -/
structure SuccessConfig where
  titlePlaceholder : Option String
  messagePlaceholder : Option String

/-- The Success variant's saved data shape. -/
structure SuccessData where
  title : String
  message : String

/-- Instance state of the JS `Success` class after construction.  Note the
constructor destructures only `{data, config, api}`: the read-only flag the
host passes is dropped and never stored. -/
structure Success where
  api : ApiStyles
  titlePlaceholder : String
  messagePlaceholder : String
  data : SuccessData

/-- JS `Success` constructor.  The `readOnly` argument is part of the
host's construction payload but is ignored by this class. -/
def Success.construct (data : TitleMessageInput) (config : SuccessConfig)
    (api : ApiStyles) (_readOnly : Bool) : Success :=
  { api := api
    titlePlaceholder := jsOr config.titlePlaceholder "Title"
    messagePlaceholder := jsOr config.messagePlaceholder "Message"
    data :=
      { title := jsOr data.title ""
        message := jsOr data.message "" } }

/-- JS `Success.render`: same shape as the TS variant but with
`contentEditable: true` unconditionally. -/
def Success.render (s : Success) : Element :=
  .node "div" [s.api.block, "cdx-success"] false "" none none
    [ .node "div" [s.api.input, "cdx-success__title"] true
        s.data.title (some s.titlePlaceholder) none []
    , .node "div" [s.api.input, "cdx-success__message"] true
        s.data.message (some s.messagePlaceholder) none [] ]

/-- JS `Success.save`: reads `title.innerHTML` / `message.innerHTML`
without a null guard, so a missing sub-element throws (modelled as `none`);
on success, `Object.assign(this.data, {...})` updates the internal data in
place and returns it. -/
def Success.save (s : Success) (el : Element) : Option (SuccessData × Success) :=
  match querySelector el "cdx-success__title",
        querySelector el "cdx-success__message" with
  | some titleEl, some messageEl =>
    let d : SuccessData := { title := titleEl.innerHTML, message := messageEl.innerHTML }
    some (d, { s with data := d })
  | _, _ => none

/-- JS `Success.sanitize` static getter. -/
def Success.sanitizeConfig : List (String × List String) :=
  [("title", []), ("message", [])]

/-- Caller-supplied partial block data for the typed (alert-style)
variant: both fields may be absent. -/
structure AlertInput where
  type : Option String
  message : Option String

/-- Config of the typed variant.  All entries may be absent from the
config object; the constructor reads them without validation. -/
structure AlertConfig where
  messagePlaceholder : Option String
  defaultType : Option String
  typeColor : Option (List (String × String))

/-- The typed variant's internal data object `this.data`.
`type` is `Option` because when the supplied type is unrecognized and
`config.defaultType` is absent, `this.data.type` is `undefined`. -/
structure AlertData where
  type : Option String
  message : String

/-- Instance state of the typed `Warning` (alert) class after
construction. -/
structure Alert where
  api : ApiStyles
  readOnly : Bool
  messagePlaceholder : String
  defaultType : Option String
  typeColor : List (String × String)
  dataType : Option String
  dataMessage : String

/-- Typed-variant constructor.  `Object.keys(this.config.typeColor)`
throws a TypeError when `typeColor` is absent, modelled as `none`.
Otherwise: `type` is kept when it is a key of `typeColor`, else replaced
by `config.defaultType`; `message` is `data.message || ""`. -/
def Alert.construct (data : AlertInput) (config : AlertConfig)
    (api : ApiStyles) (readOnly : Bool) : Option Alert :=
  match config.typeColor with
  | none => none
  | some tc =>
    some
      { api := api
        readOnly := readOnly
        messagePlaceholder := jsOr config.messagePlaceholder "Message"
        defaultType := config.defaultType
        typeColor := tc
        dataType :=
          match data.type with
          | some t => if t ∈ tc.map Prod.fst then some t else config.defaultType
          | none => config.defaultType
        dataMessage := jsOr data.message "" }

/-- Typed-variant `render`: container classed `cdx-warning` and
`cdx-warning-${type}`, holding the background div (class `bg`, colored
from `typeColor` when `this.data.type` is truthy) and the message div
with `contentEditable = !readOnly`. -/
def Alert.render (a : Alert) : Element :=
  .node "div" ["cdx-warning", "cdx-warning-" ++ jsStr a.dataType] false "" none none
    [ .node "div" ["bg"] false "" none
        (if jsTruthy a.dataType then a.typeColor.lookup (jsStr a.dataType) else none) []
    , .node "div" ["cdx-warning__message"] (!a.readOnly)
        a.dataMessage (some a.messagePlaceholder) none [] ]

/-- The mutable UI-facing state of a rendered typed-variant block:
`this.data.type`, the container's class list, the background's color, and
the settings buttons.  Each settings button is one entry per `typeColor`
key, in key order, paired with whether it currently carries the
`settingsButtonActive` marker class (the only piece of a button's state
the adapter ever changes). -/
structure AlertUI where
  typeColor : List (String × String)
  dataType : Option String
  containerClasses : List String
  bgColor : Option String
  buttons : List (String × Bool)

/-- State after `render` and `renderSettings`: container and background as
produced by `render`; one settings button per `typeColor` key, active
exactly when `this.data.type === type`. -/
def Alert.initUI (a : Alert) : AlertUI :=
  { typeColor := a.typeColor
    dataType := a.dataType
    containerClasses := (a.render).classes
    bgColor := ((querySelector a.render "bg").map Element.bgColor).getD none
    buttons := (a.typeColor.map Prod.fst).map (fun t => (t, a.dataType == some t)) }

/-- One iteration of the `forEach` loop inside `_changeAlertType`: remove
the type's modifier class from the container; when it is the selected
type, add the class back and set the background color from `typeColor`. -/
def Alert.typeSwitchStep (tc : List (String × String)) (newType : String)
    (acc : AlertUI) (t : String) : AlertUI :=
  let cs := classListRemove acc.containerClasses ("cdx-warning-" ++ t)
  if newType = t then
    { acc with
        containerClasses := classListAdd cs ("cdx-warning-" ++ t)
        bgColor := tc.lookup t }
  else
    { acc with containerClasses := cs }

/-- `_changeAlertType(newType)`: store the new type in `this.data.type`,
then run the `forEach` loop over `Object.keys(this.config.typeColor)`. -/
def Alert.changeAlertType (ui : AlertUI) (newType : String) : AlertUI :=
  (ui.typeColor.map Prod.fst).foldl
    (Alert.typeSwitchStep ui.typeColor newType)
    { ui with dataType := some newType }

/-- The click handler of the settings button for type `b`:
`_changeAlertType(b)`, then un-highlight every settings button and
highlight the clicked one. -/
def Alert.clickSettingsButton (ui : AlertUI) (b : String) : AlertUI :=
  let ui2 := Alert.changeAlertType ui b
  { ui2 with buttons := ui2.buttons.map (fun p => (p.1, p.1 == b)) }

/-- Full user interaction: render the block and the settings strip, then
click the settings button for type `b`. -/
def Alert.selectType (a : Alert) (b : String) : AlertUI :=
  Alert.clickSettingsButton (Alert.initUI a) b

/-- Typed-variant `save`: `querySelector` for the message node, then
`{ ...this.data, message: messageEl.innerHTML }`.  Reading
`messageEl.innerHTML` on a missing node throws (modelled as `none`).  The
spread builds a fresh object: the instance's `this.data` is returned
unchanged as the second component. -/
def Alert.save (d : AlertData) (el : Element) : Option (AlertData × AlertData) :=
  match querySelector el "cdx-warning__message" with
  | none => none
  | some messageEl => some ({ type := d.type, message := messageEl.innerHTML }, d)

/-- Typed-variant `sanitize` static getter. -/
def Alert.sanitizeConfig : List (String × List String) :=
  [("type", []), ("message", [])]

/-- A fixed host style object used for concrete witnesses. -/
def apiDefault : ApiStyles :=
  { block := "cdx-block"
    input := "cdx-input"
    settingsButton := "cdx-settings-button"
    settingsButtonActive := "cdx-settings-button--active" }

/-- A bare div with no children: a structurally-degenerate root element a
host could pass to `save`. -/
def emptyDiv : Element := .node "div" [] false "" none none []

/-- A root element containing only a message node whose content has been
edited by the user. -/
def msgOnlyDiv : Element :=
  .node "div" [] false "" none none
    [.node "div" ["cdx-warning__message"] true "edited" none none []]

/-- A concrete typed-variant instance with two recognized types, used for
witnesses. -/
def alertSample : Alert :=
  { api := apiDefault
    readOnly := false
    messagePlaceholder := "Message"
    defaultType := some "info"
    typeColor := [("info", "#eee"), ("warning", "#ff0")]
    dataType := some "info"
    dataMessage := "x" }

/-! ## Helper lemmas -/

/-- The class-name prefix map `type ↦ "cdx-warning-" ++ type` is
injective, so removing one type's modifier class never removes
another's. -/
theorem wrapperForType_inj {s t : String}
    (h : "cdx-warning-" ++ s = "cdx-warning-" ++ t) : s = t := by
  have h2 := congrArg String.data h
  simp at h2
  cases s; cases t; exact congrArg String.mk h2

/-! ## Claim theorems -/

/-- C9: every variant statically declares a sanitize policy mapping each
of its output data fields (title and message for the simple variants;
type and message for the typed variant) to the empty allowed-tag set,
i.e. full tag-stripping for every field. -/
theorem c9_sanitize_policy_strips_all_tags :
    WarningTS.sanitizeConfig = [("title", []), ("message", [])] ∧
    Success.sanitizeConfig = [("title", []), ("message", [])] ∧
    Alert.sanitizeConfig = [("type", []), ("message", [])] :=
  ⟨rfl, rfl, rfl⟩

/-- C5: for every simple-variant constructor input in which the title
and/or message field is missing, the resulting internal data has both
fields present (it is a total record) and each missing field equal to the
empty string.  Stated for both simple-variant implementations. -/
theorem c5_missing_fields_become_empty (input : TitleMessageInput)
    (config : Option WarningTSConfig) (scfg : SuccessConfig)
    (api : ApiStyles) (ro : Bool) :
    (input.title = none → (WarningTS.construct input config api ro).data.title = "") ∧
    (input.message = none → (WarningTS.construct input config api ro).data.message = "") ∧
    (input.title = none → (Success.construct input scfg api ro).data.title = "") ∧
    (input.message = none → (Success.construct input scfg api ro).data.message = "") := by
  refine ⟨?_, ?_, ?_, ?_⟩ <;> intro h <;>
    simp [WarningTS.construct, Success.construct, jsOr, h]

/-- Witness for C5 at a fully-missing input. -/
theorem c5_missing_fields_become_empty_witness :
    (WarningTS.construct ⟨none, none⟩ none apiDefault false).data.title = "" ∧
    (Success.construct ⟨none, none⟩ ⟨none, none⟩ apiDefault false).data.message = "" :=
  ⟨(c5_missing_fields_become_empty ⟨none, none⟩ none ⟨none, none⟩ apiDefault false).1 rfl,
   (c5_missing_fields_become_empty ⟨none, none⟩ none ⟨none, none⟩ apiDefault false).2.2.2 rfl⟩

/-- C10: configuring an empty-string placeholder is impossible through the
public interface: when the supplied `titlePlaceholder` or
`messagePlaceholder` is `""` (falsy in JS), the constructor substitutes
the built-in default ("Title" / "Message").  Stated for both
simple-variant implementations. -/
theorem c10_empty_placeholder_uses_default (input : TitleMessageInput)
    (cfg : WarningTSConfig) (scfg : SuccessConfig) (api : ApiStyles) (ro : Bool) :
    (cfg.titlePlaceholder = some "" →
      (WarningTS.construct input (some cfg) api ro).titlePlaceholder = "Title") ∧
    (cfg.messagePlaceholder = some "" →
      (WarningTS.construct input (some cfg) api ro).messagePlaceholder = "Message") ∧
    (scfg.titlePlaceholder = some "" →
      (Success.construct input scfg api ro).titlePlaceholder = "Title") ∧
    (scfg.messagePlaceholder = some "" →
      (Success.construct input scfg api ro).messagePlaceholder = "Message") := by
  refine ⟨?_, ?_, ?_, ?_⟩ <;> intro h <;>
    simp [WarningTS.construct, Success.construct,
      WarningTS.DEFAULT_TITLE_PLACEHOLDER, WarningTS.DEFAULT_MESSAGE_PLACEHOLDER, jsOr, h]

/-- Witness for C10 at concrete empty-string placeholders. -/
theorem c10_empty_placeholder_uses_default_witness :
    (WarningTS.construct ⟨none, none⟩ (some ⟨some "", some ""⟩) apiDefault false).titlePlaceholder
      = "Title" ∧
    (Success.construct ⟨none, none⟩ ⟨some "", some ""⟩ apiDefault false).messagePlaceholder
      = "Message" :=
  ⟨(c10_empty_placeholder_uses_default ⟨none, none⟩ ⟨some "", some ""⟩ ⟨some "", some ""⟩
      apiDefault false).1 rfl,
   (c10_empty_placeholder_uses_default ⟨none, none⟩ ⟨some "", some ""⟩ ⟨some "", some ""⟩
      apiDefault false).2.2.2 rfl⟩

/-- C4: for every typed-variant constructor input whose supplied type is
not one of the keys of the configured `typeColor` mapping, the resolved
internal type equals the configured `defaultType`. -/
theorem c4_unrecognized_type_falls_back (t : String) (msg mp dt : Option String)
    (tc : List (String × String)) (api : ApiStyles) (ro : Bool)
    (h : t ∉ tc.map Prod.fst) :
    (Alert.construct ⟨some t, msg⟩ ⟨mp, dt, some tc⟩ api ro).map Alert.dataType = some dt := by
  simp [Alert.construct, h]

/-- Witness for C4 at the spec's concrete example:
`data = { type: "danger", message: "x" }`, `typeColor = { info: "#eee" }`,
`defaultType = "info"` resolves to `"info"`. -/
theorem c4_unrecognized_type_falls_back_witness :
    (Alert.construct ⟨some "danger", some "x"⟩ ⟨none, some "info", some [("info", "#eee")]⟩
        apiDefault false).map Alert.dataType = some (some "info") :=
  c4_unrecognized_type_falls_back "danger" (some "x") none (some "info")
    [("info", "#eee")] apiDefault false (by decide)

/-- C1 counterexample: on a bare div with no sub-elements, both the
Success variant's `save` and the typed variant's `save` throw (a null
`querySelector` result is dereferenced), refuting "for every adapter
variant ... save never throws". -/
theorem c1_save_counterexample :
    Success.save (Success.construct ⟨none, none⟩ ⟨none, none⟩ apiDefault false) emptyDiv
      = none ∧
    Alert.save ⟨some "info", "x"⟩ emptyDiv = none :=
  ⟨rfl, rfl⟩

/-- C1 amended: only the TS simple variant's `save` never throws — there a
missing sub-element yields the empty string for that field and the result
is always a fully-populated record.  The Success variant's `save` succeeds
exactly when both the title and the message sub-elements are found, and
the typed variant's `save` succeeds exactly when the message sub-element
is found; on a missing queried sub-element these two throw. -/
theorem c1_save_error_behavior (w : WarningTS) (s : Success) (d : AlertData)
    (el : Element) :
    (querySelector el "cdx-warning__title" = none → (w.save el).1.title = "") ∧
    (querySelector el "cdx-warning__message" = none → (w.save el).1.message = "") ∧
    ((Success.save s el).isSome ↔
      ((querySelector el "cdx-success__title").isSome ∧
       (querySelector el "cdx-success__message").isSome)) ∧
    ((Alert.save d el).isSome ↔ (querySelector el "cdx-warning__message").isSome) := by
  refine ⟨?_, ?_, ?_, ?_⟩
  · intro h; simp [WarningTS.save, h]
  · intro h; simp [WarningTS.save, h]
  · cases h1 : querySelector el "cdx-success__title" <;>
      cases h2 : querySelector el "cdx-success__message" <;>
        simp [Success.save, h1, h2]
  · cases h : querySelector el "cdx-warning__message" <;> simp [Alert.save, h]

/-- Witness for C1's amended statement on the bare div. -/
theorem c1_save_error_behavior_witness :
    ((WarningTS.construct ⟨none, none⟩ none apiDefault false).save emptyDiv).1.title = "" :=
  (c1_save_error_behavior (WarningTS.construct ⟨none, none⟩ none apiDefault false)
    (Success.construct ⟨none, none⟩ ⟨none, none⟩ apiDefault false)
    ⟨some "info", "x"⟩ emptyDiv).1 rfl

/-- C2 counterexample: a Success adapter (a simple variant) constructed
with the read-only flag set still renders every editable region as
editable, and a typed-variant adapter constructed with the read-only flag
set renders its message region as non-editable — refuting both halves of
the claim. -/
theorem c2_read_only_counterexample :
    (Success.construct ⟨none, none⟩ ⟨none, none⟩ apiDefault true).render.children.all
      (fun c => c.contentEditable) = true ∧
    (Alert.construct ⟨some "info", some "x"⟩ ⟨none, some "info", some [("info", "#eee")]⟩
        apiDefault true).map
      (fun a => (querySelector a.render "cdx-warning__message").map Element.contentEditable)
      = some (some false) :=
  ⟨rfl, rfl⟩

/-- C2 amended: the TS simple variant with the read-only flag set renders
both regions non-editable, but the JS Success simple variant ignores the
flag and renders both regions editable unconditionally; and in the typed
variant the read-only flag does take effect: the message region is
editable exactly when the flag is unset. -/
theorem c2_read_only_behavior (input : TitleMessageInput)
    (config : Option WarningTSConfig) (scfg : SuccessConfig)
    (api : ApiStyles) (ro : Bool) (a : Alert) :
    (WarningTS.construct input config api true).render.children.all
      (fun c => !c.contentEditable) = true ∧
    (Success.construct input scfg api ro).render.children.all
      (fun c => c.contentEditable) = true ∧
    (querySelector a.render "cdx-warning__message").map Element.contentEditable
      = some (!a.readOnly) := by
  refine ⟨?_, ?_, ?_⟩
  · simp [WarningTS.construct, WarningTS.render, Element.children, Element.contentEditable]
  · simp [Success.construct, Success.render, Element.children, Element.contentEditable]
  · simp [Alert.render, querySelector, findListByClass, Element.findByClass,
      Element.children, Element.contentEditable]

/-- C7 counterexample: typed-variant construction with the `typeColor`
configuration entry absent throws (`Object.keys(undefined)`), refuting
"construction never throws" for that input. -/
theorem c7_construct_counterexample :
    Alert.construct ⟨none, none⟩ ⟨none, none, none⟩ apiDefault false = none :=
  rfl

/-- C7 amended: simple-variant construction is total and yields the
empty-string fallback for missing fields; typed-variant construction with
a present `typeColor` mapping is total and yields the default-type
fallback, but with `typeColor` absent it throws. -/
theorem c7_construct_error_behavior (data : AlertInput) (mp dt : Option String)
    (tc : List (String × String)) (input : TitleMessageInput)
    (wcfg : Option WarningTSConfig) (api : ApiStyles) (ro : Bool) :
    (Alert.construct data ⟨mp, dt, some tc⟩ api ro).isSome ∧
    Alert.construct data ⟨mp, dt, none⟩ api ro = none ∧
    (data.type = none →
      (Alert.construct data ⟨mp, dt, some tc⟩ api ro).map Alert.dataType = some dt) ∧
    (input.title = none → (WarningTS.construct input wcfg api ro).data.title = "") ∧
    (input.message = none → (WarningTS.construct input wcfg api ro).data.message = "") := by
  refine ⟨?_, ?_, ?_, ?_, ?_⟩
  · simp [Alert.construct]
  · simp [Alert.construct]
  · intro h; simp [Alert.construct, h]
  · intro h; simp [WarningTS.construct, jsOr, h]
  · intro h; simp [WarningTS.construct, jsOr, h]

/-- Witness for C7's amended statement at concrete inputs. -/
theorem c7_construct_error_behavior_witness :
    (Alert.construct ⟨none, none⟩ ⟨none, some "info", some [("info", "#eee")]⟩
        apiDefault false).map Alert.dataType = some (some "info") ∧
    Alert.construct ⟨none, none⟩ ⟨none, some "info", none⟩ apiDefault false = none :=
  ⟨(c7_construct_error_behavior ⟨none, none⟩ none (some "info") [("info", "#eee")]
      ⟨none, none⟩ none apiDefault false).2.2.1 rfl,
   (c7_construct_error_behavior ⟨none, none⟩ none (some "info") [("info", "#eee")]
      ⟨none, none⟩ none apiDefault false).2.1⟩

/-- C8 counterexample: the typed variant's `save` does not merge the
freshly read message into the internal data: on a root whose message node
was edited to "edited", `save` returns the fresh message but leaves the
instance's `this.data` (second component) with the old message, so the
internal state does not reflect the DOM edit. -/
theorem c8_save_mutation_counterexample :
    Alert.save ⟨some "info", "old"⟩ msgOnlyDiv
      = some (⟨some "info", "edited"⟩, ⟨some "info", "old"⟩) ∧
    (⟨some "info", "old"⟩ : AlertData).message ≠ "edited" :=
  ⟨rfl, by decide⟩

/-- C8 amended: the simple variants' `save` (via `Object.assign`) does
update the internal data in place to the returned object, but the typed
variant's `save` builds a fresh object — it carries the internal `type`
over into the result untouched and refreshes only `message`, while the
internal state is left completely unchanged. -/
theorem c8_save_mutation_behavior (w : WarningTS) (s : Success) (d : AlertData)
    (el : Element) :
    ((w.save el).2).data = (w.save el).1 ∧
    (∀ r, Success.save s el = some r → r.2.data = r.1) ∧
    (∀ r, Alert.save d el = some r → r.2 = d ∧ r.1.type = d.type) := by
  refine ⟨rfl, ?_, ?_⟩
  · intro r h
    cases h1 : querySelector el "cdx-success__title" <;>
      cases h2 : querySelector el "cdx-success__message" <;>
        simp [Success.save, h1, h2] at h
    simp [← h]
  · intro r h
    cases h1 : querySelector el "cdx-warning__message" <;>
      simp [Alert.save, h1] at h
    constructor
    · rw [← h]
    · rw [← h]

/-- Witness for C8's amended statement: applying it to the concrete edited
root shows the typed variant's internal data survives `save` unchanged. -/
theorem c8_save_mutation_behavior_witness :
    ((⟨some "info", "edited"⟩, ⟨some "info", "old"⟩) :
        AlertData × AlertData).2 = (⟨some "info", "old"⟩ : AlertData) ∧
    ((⟨some "info", "edited"⟩, ⟨some "info", "old"⟩) :
        AlertData × AlertData).1.type = (⟨some "info", "old"⟩ : AlertData).type :=
  (c8_save_mutation_behavior (WarningTS.construct ⟨none, none⟩ none apiDefault false)
    (Success.construct ⟨none, none⟩ ⟨none, none⟩ apiDefault false)
    ⟨some "info", "old"⟩ msgOnlyDiv).2.2
    (⟨some "info", "edited"⟩, ⟨some "info", "old"⟩) rfl

/-- C3: round-trip — constructing a simple-variant adapter from well-formed
data with non-empty title and message, rendering it, and saving the
rendered element with no intervening edits returns exactly the original
data.  The side condition keeps the host's input style class distinct from
the plugin's message marker class, as it is in the real host. -/
theorem c3_render_save_round_trip (t m : String) (config : Option WarningTSConfig)
    (api : ApiStyles) (ro : Bool)
    (ht : t ≠ "") (hm : m ≠ "") (hapi : api.input ≠ "cdx-warning__message") :
    ((WarningTS.construct ⟨some t, some m⟩ config api ro).save
        ((WarningTS.construct ⟨some t, some m⟩ config api ro).render)).1
      = { title := t, message := m } := by
  have hapi' : ¬("cdx-warning__message" = api.input) := fun h => hapi h.symm
  simp [WarningTS.construct, WarningTS.render, WarningTS.save, querySelector,
    findListByClass, Element.findByClass, Element.children, Element.innerHTML,
    jsOr, ht, hm, hapi']

/-- Witness for C3 at concrete non-empty content. -/
theorem c3_render_save_round_trip_witness :
    ((WarningTS.construct ⟨some "a", some "b"⟩ none apiDefault false).save
        ((WarningTS.construct ⟨some "a", some "b"⟩ none apiDefault false).render)).1
      = { title := "a", message := "b" } :=
  c3_render_save_round_trip "a" "b" none apiDefault false
    (by decide) (by decide) (by decide)

/-- Membership after `classList.remove`. -/
theorem mem_classListRemove {cs : List String} {c d : String} :
    c ∈ classListRemove cs d ↔ c ∈ cs ∧ c ≠ d := by
  simp [classListRemove, List.mem_filter]

/-- Membership after `classList.add`. -/
theorem mem_classListAdd {cs : List String} {c d : String} :
    c ∈ classListAdd cs d ↔ c ∈ cs ∨ c = d := by
  by_cases h : d ∈ cs
  · simp only [classListAdd, if_pos h]
    exact ⟨fun hc => Or.inl hc, fun hc => hc.elim id (fun e => e ▸ h)⟩
  · simp [classListAdd, if_neg h]

/-- The `_changeAlertType` loop never touches `typeColor`, `this.data.type`
or the settings buttons. -/
theorem typeSwitch_foldl_fixed (tc : List (String × String)) (B : String)
    (l : List String) (ui : AlertUI) :
    ((l.foldl (Alert.typeSwitchStep tc B) ui).typeColor = ui.typeColor ∧
     (l.foldl (Alert.typeSwitchStep tc B) ui).dataType = ui.dataType ∧
     (l.foldl (Alert.typeSwitchStep tc B) ui).buttons = ui.buttons) := by
  induction l generalizing ui with
  | nil => exact ⟨rfl, rfl, rfl⟩
  | cons x xs ih =>
    have hstep : ((Alert.typeSwitchStep tc B ui x).typeColor = ui.typeColor ∧
        (Alert.typeSwitchStep tc B ui x).dataType = ui.dataType ∧
        (Alert.typeSwitchStep tc B ui x).buttons = ui.buttons) := by
      by_cases h : B = x <;> simp [Alert.typeSwitchStep, h]
    rw [List.foldl_cons]
    obtain ⟨e1, e2, e3⟩ := ih (Alert.typeSwitchStep tc B ui x)
    exact ⟨e1.trans hstep.1, e2.trans hstep.2.1, e3.trans hstep.2.2⟩

/-- Running the `_changeAlertType` loop over keys none of which is the
selected type only strips those keys' modifier classes and leaves the
background color alone. -/
theorem typeSwitch_foldl_not_mem (tc : List (String × String)) (B : String)
    (l : List String) (hB : B ∉ l) (ui : AlertUI) :
    (l.foldl (Alert.typeSwitchStep tc B) ui).bgColor = ui.bgColor ∧
    ∀ c, (c ∈ (l.foldl (Alert.typeSwitchStep tc B) ui).containerClasses ↔
      (c ∈ ui.containerClasses ∧ ∀ t ∈ l, c ≠ "cdx-warning-" ++ t)) := by
  induction l generalizing ui with
  | nil => simp
  | cons x xs ih =>
    have hBx : B ≠ x := fun h => hB (h ▸ List.mem_cons_self x xs)
    have hBxs : B ∉ xs := fun h => hB (List.mem_cons_of_mem x h)
    have hstep : Alert.typeSwitchStep tc B ui x =
        { ui with containerClasses :=
            classListRemove ui.containerClasses ("cdx-warning-" ++ x) } := by
      simp [Alert.typeSwitchStep, hBx]
    rw [List.foldl_cons, hstep]
    obtain ⟨hbg, hmem⟩ := ih hBxs
      { ui with containerClasses :=
          classListRemove ui.containerClasses ("cdx-warning-" ++ x) }
    refine ⟨by simpa using hbg, ?_⟩
    intro c
    rw [hmem c]
    simp only [mem_classListRemove, List.forall_mem_cons]
    tauto

/-- Full characterization of one `_changeAlertType(B)` loop run when `B`
occurs exactly once among the keys: the background color becomes
`typeColor[B]` and the container's classes are the original ones minus
every key's modifier class, plus `B`'s. -/
theorem typeSwitch_foldl_split (tc : List (String × String)) (B : String)
    (l1 l2 : List String) (h1 : B ∉ l1) (h2 : B ∉ l2) (ui : AlertUI) :
    ((l1 ++ B :: l2).foldl (Alert.typeSwitchStep tc B) ui).bgColor = tc.lookup B ∧
    ∀ c, (c ∈ ((l1 ++ B :: l2).foldl (Alert.typeSwitchStep tc B) ui).containerClasses ↔
      ((c ∈ ui.containerClasses ∧ ∀ t ∈ l1 ++ B :: l2, c ≠ "cdx-warning-" ++ t) ∨
        c = "cdx-warning-" ++ B)) := by
  have hinj : ∀ t ∈ l2, ("cdx-warning-" ++ B : String) ≠ "cdx-warning-" ++ t := by
    intro t ht heq
    exact h2 (by rw [wrapperForType_inj heq]; exact ht)
  rw [List.foldl_append, List.foldl_cons]
  obtain ⟨hbg1, hmem1⟩ := typeSwitch_foldl_not_mem tc B l1 h1 ui
  have hstepB : Alert.typeSwitchStep tc B (l1.foldl (Alert.typeSwitchStep tc B) ui) B =
      { l1.foldl (Alert.typeSwitchStep tc B) ui with
          containerClasses :=
            classListAdd
              (classListRemove
                (l1.foldl (Alert.typeSwitchStep tc B) ui).containerClasses
                ("cdx-warning-" ++ B))
              ("cdx-warning-" ++ B)
          bgColor := tc.lookup B } := by
    simp [Alert.typeSwitchStep]
  rw [hstepB]
  obtain ⟨hbg2, hmem2⟩ := typeSwitch_foldl_not_mem tc B l2 h2
    { l1.foldl (Alert.typeSwitchStep tc B) ui with
        containerClasses :=
          classListAdd
            (classListRemove
              (l1.foldl (Alert.typeSwitchStep tc B) ui).containerClasses
              ("cdx-warning-" ++ B))
            ("cdx-warning-" ++ B)
        bgColor := tc.lookup B }
  refine ⟨by simpa using hbg2, ?_⟩
  intro c
  rw [hmem2 c]
  simp only [mem_classListAdd, mem_classListRemove, hmem1 c,
    List.forall_mem_append, List.forall_mem_cons]
  constructor
  · rintro ⟨⟨⟨hc, hl1⟩, hB'⟩ | rfl, hl2⟩
    · exact Or.inl ⟨hc, hl1, hB', hl2⟩
    · exact Or.inr rfl
  · rintro (⟨hc, hl1, hB', hl2⟩ | rfl)
    · exact ⟨Or.inl ⟨⟨hc, hl1⟩, hB'⟩, hl2⟩
    · exact ⟨Or.inr rfl, hinj⟩

/-- When the clicked type occurs in none of the keys, no settings button
ends up highlighted. -/
theorem activeButtons_not_mem {l : List String} {b : String} (hnb : b ∉ l) :
    ((l.map (fun t => (t, t == b))).filter (fun p => p.2)).map Prod.fst = [] := by
  induction l with
  | nil => rfl
  | cons x xs ih =>
    have hxb : x ≠ b := fun e => hnb (by rw [← e]; exact List.mem_cons_self x xs)
    have hxs : b ∉ xs := fun h => hnb (List.mem_cons_of_mem x h)
    simpa [List.filter_cons, hxb] using ih hxs

/-- After the click handler re-marks the buttons, exactly the clicked
key's button is highlighted (the keys of a JS object are distinct). -/
theorem activeButtons_eq {l : List String} {b : String} (hnd : l.Nodup) (hb : b ∈ l) :
    ((l.map (fun t => (t, t == b))).filter (fun p => p.2)).map Prod.fst = [b] := by
  induction l with
  | nil => cases hb
  | cons x xs ih =>
    rw [List.nodup_cons] at hnd
    by_cases hxb : x = b
    · subst hxb
      simpa [List.filter_cons] using activeButtons_not_mem hnd.1
    · have hbxs : b ∈ xs := by
        cases List.mem_cons.mp hb with
        | inl h => exact absurd h.symm hxb
        | inr h => exact h
      simpa [List.filter_cons, hxb] using ih hnd.2 hbxs

/-- C6: for a typed-variant adapter whose current type is the recognized
key `A`, selecting the settings control of a recognized type key `B`
updates the internal type to `B`, removes `A`'s modifier class — present
on the container before the click — (when `B` differs from `A`; selecting
the current type re-adds it), adds `B`'s modifier class, sets the background color to
`typeColor[B]`, and leaves exactly one settings control highlighted —
`B`'s.  The keys of the `typeColor` JS object are necessarily distinct. -/
theorem c6_type_switch_transition (a : Alert) (A B : String)
    (hnodup : (a.typeColor.map Prod.fst).Nodup)
    (hA : A ∈ a.typeColor.map Prod.fst)
    (hB : B ∈ a.typeColor.map Prod.fst)
    (hcur : a.dataType = some A) :
    (Alert.selectType a B).dataType = some B ∧
    ("cdx-warning-" ++ A) ∈ (Alert.initUI a).containerClasses ∧
    (A ≠ B → ("cdx-warning-" ++ A) ∉ (Alert.selectType a B).containerClasses) ∧
    ("cdx-warning-" ++ B) ∈ (Alert.selectType a B).containerClasses ∧
    (Alert.selectType a B).bgColor = a.typeColor.lookup B ∧
    (((Alert.selectType a B).buttons.filter (fun p => p.2)).map Prod.fst) = [B] := by
  obtain ⟨l1, l2, hsplit⟩ := List.append_of_mem hB
  have hnd' := hnodup
  rw [hsplit, List.nodup_append] at hnd'
  have h2 : B ∉ l2 := (List.nodup_cons.mp hnd'.2.1).1
  have h1 : B ∉ l1 := fun hmem => hnd'.2.2 hmem (List.mem_cons_self B l2)
  set ui0 : AlertUI := { Alert.initUI a with dataType := some B } with hui0
  set ui2 : AlertUI :=
    (a.typeColor.map Prod.fst).foldl (Alert.typeSwitchStep a.typeColor B) ui0 with hui2
  have hsel1 : (Alert.selectType a B).dataType = ui2.dataType := rfl
  have hsel2 : (Alert.selectType a B).containerClasses = ui2.containerClasses := rfl
  have hsel3 : (Alert.selectType a B).bgColor = ui2.bgColor := rfl
  have hsel4 : (Alert.selectType a B).buttons
      = ui2.buttons.map (fun p => (p.1, p.1 == B)) := rfl
  have hui2' : ui2 = (l1 ++ B :: l2).foldl (Alert.typeSwitchStep a.typeColor B) ui0 := by
    rw [hui2, hsplit]
  obtain ⟨hbg, hmem⟩ := typeSwitch_foldl_split a.typeColor B l1 l2 h1 h2 ui0
  obtain ⟨hfix1, hfix2, hfix3⟩ :=
    typeSwitch_foldl_fixed a.typeColor B (a.typeColor.map Prod.fst) ui0
  refine ⟨?_, ?_, ?_, ?_, ?_, ?_⟩
  · rw [hsel1, hui2]
    exact hfix2
  · simp [Alert.initUI, Alert.render, Element.classes, jsStr, hcur]
  · intro hAB hmemA
    rw [hsel2, hui2'] at hmemA
    rcases (hmem _).mp hmemA with ⟨_, hall⟩ | heq
    · exact hall A (hsplit ▸ hA) rfl
    · exact hAB (wrapperForType_inj heq)
  · rw [hsel2, hui2']
    exact (hmem _).mpr (Or.inr rfl)
  · rw [hsel3, hui2']
    exact hbg
  · rw [hsel4, hui2]
    rw [hfix3]
    have hbtn : ui0.buttons
        = (a.typeColor.map Prod.fst).map (fun t => (t, a.dataType == some t)) := rfl
    rw [hbtn, List.map_map]
    exact activeButtons_eq hnodup hB

/-- Witness for C6 on a concrete two-type adapter, switching from
"info" to "warning". -/
theorem c6_type_switch_transition_witness :
    ("cdx-warning-" ++ "info") ∉ (Alert.selectType alertSample "warning").containerClasses ∧
    (Alert.selectType alertSample "warning").bgColor
      = alertSample.typeColor.lookup "warning" ∧
    (((Alert.selectType alertSample "warning").buttons.filter (fun p => p.2)).map Prod.fst)
      = ["warning"] :=
  ⟨(c6_type_switch_transition alertSample "info" "warning"
      (by decide) (by decide) (by decide) rfl).2.2.1 (by decide),
   (c6_type_switch_transition alertSample "info" "warning"
      (by decide) (by decide) (by decide) rfl).2.2.2.2.1,
   (c6_type_switch_transition alertSample "info" "warning"
      (by decide) (by decide) (by decide) rfl).2.2.2.2.2⟩
